import Mathlib

/-!
Verification of the core classification and merge logic of the
`ingredient-analyzer` repository, as a shallow embedding in Lean 4.

Python strings are modelled as Lean `String` / `List Char` (the data under
verification is ASCII, so `Char.toLower` agrees with Python `str.lower`),
Python `Optional[str]` results as `Option String`, and Python dicts keyed by
column index as association lists `List (Nat × String)` with Python
assignment semantics (`dinsert`: update in place if the key exists, append
otherwise) and insertion-ordered iteration, matching CPython dicts.

Each definition is translated from the corresponding function in `src/`;
external web-scraping capabilities (CosIng, SkinSafe) are treated as opaque
collaborators, i.e. their results are universally quantified parameters,
exactly as the design document scopes them.
-/

namespace IngredientAnalyzer

/-! ### Python string primitives -/

/-- Python truthiness test `not s` for a `str`: true iff the string is empty. -/
def pyEmpty (s : String) : Bool := s.data.isEmpty

/-- Python `s.lower()` (ASCII range, which covers all INCI names used). -/
def pyLower (s : String) : List Char := s.data.map Char.toLower

/-- Python substring test `pat in cs` on character lists. -/
def containsSub : List Char → List Char → Bool
  | [], pat => pat.isEmpty
  | c :: rest, pat => pat.isPrefixOf (c :: rest) || containsSub rest pat

/-- Helper for `removeAll`: while `skip > 0` we are inside an occurrence of
the pattern and drop characters; at `skip = 0` we test for a fresh
occurrence (structural recursion so the kernel can evaluate it). -/
def removeAllAux (pat : List Char) : Nat → List Char → List Char
  | _, [] => []
  | skip + 1, _ :: rest => removeAllAux pat skip rest
  | 0, c :: rest =>
    if !pat.isEmpty && pat.isPrefixOf (c :: rest) then
      removeAllAux pat (pat.length - 1) rest
    else
      c :: removeAllAux pat 0 rest

/-- Python `s.replace(pat, "")`: remove every non-overlapping occurrence of
`pat`, scanning left to right. -/
def removeAll (pat : List Char) (cs : List Char) : List Char :=
  removeAllAux pat 0 cs

/-- `for term in terms: if term in text: ...` — true iff some term occurs. -/
def anyContains (terms : List String) (cs : List Char) : Bool :=
  terms.any (fun t => containsSub cs t.data)

/-- Fold of Python `clean = clean.replace(fp, "")` over a false-positive list. -/
def stripAll (fps : List String) (cs : List Char) : List Char :=
  fps.foldl (fun acc fp => removeAll fp.data acc) cs

/-! ### `logic/dairy.py` -/

namespace Dairy

/-- `_CONTAINS` of `logic/dairy.py`. -/
def CONTAINS : List String :=
  ["milk", " lac ", "lac extract", "milk extract", "milk protein",
   "hydrolyzed milk protein", "casein", "sodium caseinate",
   "calcium caseinate", "whey", "lactoglobulin", "lactalbumin", "yogurt",
   "yoghurt", "buttermilk", "cream", "caseinate", "caprae lac", "goat milk",
   "donkey milk", "mare milk", "sheep milk", "fermented milk",
   "milk ferment", "colostrum", "ghee", "butter", "butyrum", "lactoferrin",
   "lactoperoxidase"]

/-- `_FALSE_POSITIVES` of `logic/dairy.py`. -/
def FALSE_POSITIVES : List String :=
  ["lactic acid", "sodium lactate", "lactate", "lactylate", "polylactic",
   "lactobacillus", "black", "lactose"]

end Dairy

/-- `logic/dairy.py::is_dairy_free`. -/
def is_dairy_free (inci_name : String) : Option String :=
  if pyEmpty inci_name then none
  else
    let lower := pyLower inci_name
    let clean := stripAll Dairy.FALSE_POSITIVES lower
    if anyContains Dairy.CONTAINS clean then some "No" else none

/-! ### `logic/seafood.py` -/

namespace Seafood

/-- `_CONTAINS` of `logic/seafood.py`. -/
def CONTAINS : List String :=
  ["fish", "salmon", "salmo salar", "cod", "gadus morhua", "tuna",
   "thunnus", "anchovy", "engraulis", "caviar", "acipenser", "roe",
   "marine collagen", "fish collagen", "hydrolyzed fish collagen",
   "chitosan", "chitin", "shrimp", "penaeus", "litopenaeus", "crab",
   "cancer ", "portunus", "lobster", "homarus", "oyster", "ostrea",
   "crassostrea", "mussel", "mytilus", "mollusk"]

/-- `_FALSE_POSITIVES` of `logic/seafood.py`. -/
def FALSE_POSITIVES : List String :=
  ["algae", "seaweed", "kelp", "spirulina", "laminaria", "fucus",
   "sea salt", "sodium chloride", "magnesium chloride"]

end Seafood

/-- `logic/seafood.py::is_seafood_free`. -/
def is_seafood_free (inci_name : String) : Option String :=
  if pyEmpty inci_name then none
  else
    let lower := pyLower inci_name
    let clean := stripAll Seafood.FALSE_POSITIVES lower
    if anyContains Seafood.CONTAINS clean then some "No" else none

/-! ### `logic/vegan.py` -/

namespace Vegan

/-- `_BEE_TERMS` of `logic/vegan.py`. -/
def BEE_TERMS : List String :=
  ["honey", "mel ", "mel extract", "honey extract", "honey powder",
   "honey ferment", "hydrolyzed honey", "honey wax", "honey acid",
   "cera alba", "beeswax", "white beeswax", "yellow beeswax",
   "hydrogenated beeswax", "hydrolyzed beeswax", "beeswax acid",
   "beeswax absolute", "beeswax extract", "propolis", "royal jelly",
   "bee venom", "apitoxin", "apis mellifera", "bee pollen"]

/-- `_LANOLIN_TERMS` of `logic/vegan.py`. -/
def LANOLIN_TERMS : List String :=
  ["lanolin", "lanolate", "laneth", "lanogene", "wool wax", "wool fat",
   "adeps lanae"]

/-- `_ANIMAL_PROTEIN_TERMS` of `logic/vegan.py`. -/
def ANIMAL_PROTEIN_TERMS : List String :=
  ["collagen", "hydrolyzed collagen", "soluble collagen", "elastin",
   "hydrolyzed elastin", "keratin", "hydrolyzed keratin", "wool keratin",
   "placenta", "hydrolyzed placental protein", "cholesterol",
   "silk protein", "hydrolyzed silk", "sericin", "soluble silk",
   "silk amino acids", "silk extract", "hydrolyzed sericin", "fibroin",
   "silk fibroin", "hydrolyzed fibroin", "bombyx"]

/-- `_CARMINE_TERMS` of `logic/vegan.py`. -/
def CARMINE_TERMS : List String :=
  ["carmine", "cochineal", "ci 75470", "carminic acid"]

/-- `_SLAUGHTER_TERMS` of `logic/vegan.py`. -/
def SLAUGHTER_TERMS : List String :=
  ["tallow", "sodium tallowate", "adeps bovis", "lard", "gelatin",
   "hide glue", "mink oil", "emu oil", "rennet", "rennin",
   "hydrolyzed animal protein", "snail secretion", "snail filtrate",
   "pearl extract", "pearl powder", "castoreum", "ambergris", "civet",
   "musk", "shellac", "cera lacca"]

/-- `_ALWAYS_VEGAN` of `logic/vegan.py`. -/
def ALWAYS_VEGAN : List String :=
  ["synthetic wax", "candelilla", "carnauba", "sunflower wax",
   "rice bran wax", "niacinamide", "salicylic acid", "ascorbic acid",
   "phenoxyethanol", "carbomer", "propylene glycol", "butylene glycol",
   "titanium dioxide", "zinc oxide", "iron oxide", "mica", "kaolin",
   "bentonite", "silica"]

end Vegan

/-- `logic/vegan.py::is_vegan`. -/
def is_vegan (inci_name : String) : Option String :=
  if pyEmpty inci_name then none
  else
    let lower := pyLower inci_name
    if is_seafood_free inci_name = some "No" then some "No"
    else if is_dairy_free inci_name = some "No" then some "No"
    else if anyContains Vegan.BEE_TERMS lower then some "No"
    else if anyContains Vegan.LANOLIN_TERMS lower then some "No"
    else if anyContains Vegan.ANIMAL_PROTEIN_TERMS lower then some "No"
    else if anyContains Vegan.CARMINE_TERMS lower then some "No"
    else if anyContains Vegan.SLAUGHTER_TERMS lower then some "No"
    else if anyContains Vegan.ALWAYS_VEGAN lower then some "Yes"
    else none

/-! ### `logic/vegetarian.py` -/

namespace Vegetarian

/-- `_VEGETARIAN_YES` of `logic/vegetarian.py`. -/
def VEGETARIAN_YES : List String :=
  ["honey", "mel ", "beeswax", "cera alba", "cera flava", "propolis",
   "royal jelly", "bee pollen", "bee venom", "apis mellifera", "milk",
   "casein", "caseinate", "whey", "lactalbumin", "lactoglobulin",
   "lactoferrin", "lactoperoxidase", "lactose", "colostrum", "ghee",
   "butter", "butyrum", "buttermilk", "cream", "yogurt", "yoghurt",
   "albumen", "albumin", "egg protein", "ovalbumin", "lanolin",
   "lanolate", "laneth", "wool wax", "wool fat", "adeps lanae"]

/-- `_SLAUGHTER_TERMS` of `logic/vegetarian.py`. -/
def SLAUGHTER_TERMS : List String :=
  ["collagen", "hydrolyzed collagen", "soluble collagen", "elastin",
   "hydrolyzed elastin", "keratin", "hydrolyzed keratin", "tallow",
   "sodium tallowate", "adeps bovis", "lard", "gelatin", "hide glue",
   "mink oil", "emu oil", "placenta", "hydrolyzed placental protein",
   "rennet", "rennin", "hydrolyzed animal protein", "blood", "bone char",
   "bone meal", "catgut", "snail secretion", "snail filtrate",
   "castoreum", "ambergris", "civet", "turtle oil", "sea turtle oil",
   "spermaceti", "sperm oil", "shark liver oil"]

/-- `_INSECT_TERMS` of `logic/vegetarian.py`. -/
def INSECT_TERMS : List String :=
  ["carmine", "cochineal", "ci 75470", "carminic acid", "shellac",
   "cera lacca", "resinous glaze"]

/-- `_SILK_TERMS` of `logic/vegetarian.py`. -/
def SILK_TERMS : List String :=
  ["silk protein", "hydrolyzed silk", "sericin", "soluble silk",
   "silk amino acids", "silk extract", "hydrolyzed sericin", "fibroin",
   "silk fibroin", "hydrolyzed fibroin", "bombyx"]

/-- `_OTHER_ANIMAL_TERMS` of `logic/vegetarian.py`. -/
def OTHER_ANIMAL_TERMS : List String :=
  ["pearl extract", "pearl powder", "coral", "corallina", "sponge"]

end Vegetarian

/-- `logic/vegetarian.py::is_vegetarian`. -/
def is_vegetarian (inci_name : String) : Option String :=
  if pyEmpty inci_name then none
  else
    let lower := pyLower inci_name
    if is_seafood_free inci_name = some "No" then some "No"
    else if anyContains Vegetarian.SLAUGHTER_TERMS lower then some "No"
    else if anyContains Vegetarian.INSECT_TERMS lower then some "No"
    else if anyContains Vegetarian.SILK_TERMS lower then some "No"
    else if anyContains Vegetarian.OTHER_ANIMAL_TERMS lower then some "No"
    else if anyContains Vegetarian.VEGETARIAN_YES lower then some "Yes"
    else none

/-! ### `logic/paleo.py` -/

namespace Paleo

/-- `_CONTAINS_NOT_PALEO` of `logic/paleo.py`. -/
def CONTAINS_NOT_PALEO : List String :=
  ["peg", "ppg", "acrylate", "acrylates", "methacrylate", "carbomer",
   "dimethicone", "siloxane", "silicone", "polymer", "copolymer",
   "crosspolymer", "polyquaternium", "pvp", "vp/", "petrolatum",
   "mineral oil", "paraffin", "edta", "bht", "bha", "fragrance",
   "parfum", "aroma"]

/-- Python regex `\w`: word characters (ASCII range). -/
def isWordChar (c : Char) : Bool := c.isAlphanum || c == '_'

/-- Word boundary after the end of a word-character run: end of string or a
non-word character. -/
def boundaryAfter : List Char → Bool
  | [] => true
  | c :: _ => !isWordChar c

/-- Matcher for `_ETH_PATTERN = r'-eth\b|\beth-|\w+eth\b'` (IGNORECASE):
scans every position, carrying the reversed preceding characters so the
`\b` and `\w+` contexts can be tested. -/
def ethSearchAux (prev : List Char) : List Char → Bool
  | [] => false
  | c :: rest =>
    let cs := c :: rest
    let alt1 := "-eth".data.isPrefixOf cs && boundaryAfter (cs.drop 4)
    let alt2 :=
      (match prev with | [] => true | p :: _ => !isWordChar p) &&
      "eth-".data.isPrefixOf cs
    let alt3 :=
      (match prev with | [] => false | p :: _ => isWordChar p) &&
      "eth".data.isPrefixOf cs && boundaryAfter (cs.drop 3)
    alt1 || alt2 || alt3 || ethSearchAux (c :: prev) rest

/-- `_ETH_PATTERN.search` (IGNORECASE modelled by lowercasing the input;
the pattern itself has no cased literals besides `eth`). -/
def ethSearch (cs : List Char) : Bool := ethSearchAux [] cs

end Paleo

/-- `logic/paleo.py::is_paleo`. -/
def is_paleo (inci_name : String) : Option String :=
  if pyEmpty inci_name then none
  else
    let lower := pyLower inci_name
    if anyContains Paleo.CONTAINS_NOT_PALEO lower then some "No"
    else if Paleo.ethSearch (pyLower inci_name) then some "No"
    else none

/-! ### `logic/silicone.py` -/

namespace Silicone

/-- `_CONTAINS` of `logic/silicone.py`. -/
def CONTAINS : List String :=
  ["silicone", "siloxane", "dimethicone", "methicone", "trimethicone",
   "phenyl trimethicone", "amodimethicone", "dimethiconol",
   "silicone quaternium", "cyclopentasiloxane", "cyclohexasiloxane",
   "cyclomethicone", "polysilicone", "silsesquioxane"]

/-- `_SILICONE_ROOTS` of `logic/silicone.py`. -/
def SILICONE_ROOTS : List String := ["dimethicone", "siloxane", "methicone"]

/-- `_POLYMER_TERMS` of `logic/silicone.py`. -/
def POLYMER_TERMS : List String := ["crosspolymer", "polymer"]

/-- `_FALSE_POSITIVES` of `logic/silicone.py`. -/
def FALSE_POSITIVES : List String :=
  ["silica", "silicate", "silicon dioxide"]

/-- Matcher for the effective `_SILANE_PATTERN = r'(?<!sili)silan'`
(the second assignment in the source shadows the first): an occurrence of
`silan` not immediately preceded by `sili`. `prev` holds the reversed
preceding characters, so the lookbehind tests the prefix `ilis`. -/
def silaneSearchAux (prev : List Char) : List Char → Bool
  | [] => false
  | c :: rest =>
    ("silan".data.isPrefixOf (c :: rest) && !("ilis".data.isPrefixOf prev))
    || silaneSearchAux (c :: prev) rest

/-- `_SILANE_PATTERN.search` on an (already lowercased) text. -/
def silaneSearch (cs : List Char) : Bool := silaneSearchAux [] cs

end Silicone

/-- `logic/silicone.py::is_silicone_free`. -/
def is_silicone_free (inci_name : String) : Option String :=
  if pyEmpty inci_name then none
  else
    let lower := pyLower inci_name
    let clean := stripAll Silicone.FALSE_POSITIVES lower
    if anyContains Silicone.CONTAINS clean then some "No"
    else if Silicone.silaneSearch clean then some "No"
    else if (Silicone.SILICONE_ROOTS.any fun root => containsSub clean root.data)
            && (Silicone.POLYMER_TERMS.any fun poly => containsSub clean poly.data) then
      some "No"
    else none

/-! ### `logic/latex.py` -/

namespace Latex

/-- `_CONTAINS` of `logic/latex.py`. -/
def CONTAINS : List String :=
  ["latex", "natural rubber", "hevea brasiliensis", "rubber"]

/-- `_CROSS_REACTIVE_STEMS` of `logic/latex.py`. -/
def CROSS_REACTIVE_STEMS : List String :=
  ["musa sapientum", "musa paradisiaca", "musa ", "persea gratissima",
   "persea americana", "persea ", "actinidia chinensis",
   "actinidia deliciosa", "actinidia ", "castanea sativa",
   "carica papaya", "papain"]

end Latex

/-- `logic/latex.py::is_latex_free`. -/
def is_latex_free (inci_name : String) : Option String :=
  if pyEmpty inci_name then none
  else
    let lower := pyLower inci_name
    if anyContains Latex.CONTAINS lower then some "No"
    else if anyContains Latex.CROSS_REACTIVE_STEMS lower then some "No"
    else none

/-! ### `logic/sesame.py` -/

namespace Sesame

/-- `_CONTAINS` of `logic/sesame.py`. -/
def CONTAINS : List String := ["sesamum", "sesame"]

end Sesame

/-- `logic/sesame.py::is_sesame_free`. -/
def is_sesame_free (inci_name : String) : Option String :=
  if pyEmpty inci_name then none
  else
    let lower := pyLower inci_name
    if anyContains Sesame.CONTAINS lower then some "No" else none

/-! ### `logic/sensitivity.py` -/

namespace Sensitivity

/-- The six hazard categories of the sensitivity engine. Python uses the
string labels "A".."F" in a set; only membership is consumed downstream. -/
inductive Cat
  | A | B | C | D | E | F
deriving DecidableEq, Repr

/-- `_CAT_A` of `logic/sensitivity.py`. -/
def CAT_A : List String :=
  ["benzoyl peroxide", "glycolic acid", "lactic acid", "mandelic acid",
   "salicylic acid", "betaine salicylate", "gluconolactone",
   "lactobionic acid", "trichloroacetic acid", "phenol", "resorcinol",
   "sulfur", "selenium sulfide", "potassium hydroxide",
   "sodium hydroxide", "urea", "tretinoin", "adapalene", "tazarotene",
   "isotretinoin", "sodium lauryl sulfate", "ammonium lauryl sulfate",
   "sodium tallowate", "sodium cocoate", "hydrogen peroxide",
   "potassium permanganate", "ammonium persulfate", "hydroquinone",
   "monobenzone", "capsaicin", "methyl salicylate", "camphor"]

/-- `_CAT_B` of `logic/sensitivity.py`. -/
def CAT_B : List String :=
  ["parfum", "fragrance", "limonene", "linalool", "eugenol", "citral",
   "geraniol", "menthol", "peppermint oil", "eucalyptus oil",
   "benzyl alcohol", "benzyl salicylate", "benzyl benzoate", "cinnamal",
   "cinnamyl alcohol", "coumarin", "farnesol", "hexyl cinnamal",
   "isoeugenol", "amyl cinnamal", "hydroxycitronellal", "anise alcohol",
   "citrus limon peel oil", "citrus aurantium dulcis peel oil",
   "citrus paradisi peel oil", "citrus bergamia peel oil",
   "citrus aurantifolia peel oil", "lavandula angustifolia oil",
   "lavandula hybrida oil", "rosa damascena flower oil",
   "cananga odorata flower oil", "eugenia caryophyllus bud oil",
   "cinnamomum zeylanicum bark oil", "melaleuca alternifolia leaf oil",
   "mentha piperita oil", "mentha spicata oil", "thymus vulgaris oil",
   "rosmarinus officinalis leaf oil", "lavender oil", "ylang ylang oil",
   "rose oil", "jasmine oil", "clove oil", "cinnamon oil",
   "tea tree oil", "spearmint oil", "wintergreen oil", "thyme oil",
   "rosemary oil"]

/-- `_CAT_C` of `logic/sensitivity.py`. -/
def CAT_C : List String :=
  ["alcohol denat", "sd alcohol", "isopropyl alcohol",
   "sodium lauryl sulfate", "ammonium lauryl sulfate",
   "sodium myreth sulfate", "tea-lauryl sulfate"]

/-- `_CAT_D` of `logic/sensitivity.py`. -/
def CAT_D : List String :=
  ["retinol", "retinaldehyde", "retinyl palmitate", "retinyl acetate",
   "glycolic acid", "lactic acid", "mandelic acid", "salicylic acid",
   "betaine salicylate", "tartaric acid", "malic acid", "citric acid",
   "ascorbic acid", "l-ascorbic acid"]

/-- `_CAT_E` of `logic/sensitivity.py`. -/
def CAT_E : List String :=
  ["propylene glycol", "ethoxydiglycol", "dimethyl isosorbide"]

/-- `_CAT_F` of `logic/sensitivity.py`. -/
def CAT_F : List String :=
  ["methylisothiazolinone", "methylchloroisothiazolinone",
   "benzisothiazolinone", "octylisothiazolinone",
   "benzalkonium chloride", "dmdm hydantoin", "imidazolidinyl urea",
   "diazolidinyl urea", "quaternium-15", "bronopol",
   "2-bromo-2-nitropropane-1,3-diol", "sodium hydroxymethylglycinate"]

/-- Python regex `\s`: whitespace (ASCII range). -/
def isPySpace (c : Char) : Bool :=
  [' ', '\t', '\n', '\r', '\x0b', '\x0c'].contains c

/-- Tail of the citrus pattern: `\s*oil` at the current position. -/
def oilAfterSpaces : List Char → Bool
  | [] => false
  | c :: rest =>
    if "oil".data.isPrefixOf (c :: rest) then true
    else if isPySpace c then oilAfterSpaces rest
    else false

/-- Regex `.*p`: the continuation `p` matches here or after consuming any
number of non-newline characters (`.` does not match `\n` in Python). -/
def dotStarThen (p : List Char → Bool) : List Char → Bool
  | [] => p []
  | c :: rest => p (c :: rest) || ((c != '\n') && dotStarThen p rest)

/-- `re.search`: try the matcher at every start position. -/
def searchAny (p : List Char → Bool) : List Char → Bool
  | [] => p []
  | c :: rest => p (c :: rest) || searchAny p rest

/-- Middle of the citrus pattern: `(peel|zest)\s*oil`. -/
def peelZestOil (cs : List Char) : Bool :=
  ("peel".data.isPrefixOf cs && oilAfterSpaces (cs.drop 4))
  || ("zest".data.isPrefixOf cs && oilAfterSpaces (cs.drop 4))

/-- `_CITRUS_PEEL_PATTERN.search` — `r'citrus.*(peel|zest)\s*oil'` with
IGNORECASE, modelled by searching the lowercased text. -/
def citrusPeelSearch (s : String) : Bool :=
  searchAny
    (fun cs => "citrus".data.isPrefixOf cs && dotStarThen peelZestOil (cs.drop 6))
    (pyLower s)

/-- `_MENTHA_PATTERN.search` — `r'mentha.*oil'` with IGNORECASE. -/
def menthaSearch (s : String) : Bool :=
  searchAny
    (fun cs => "mentha".data.isPrefixOf cs
      && dotStarThen (fun t => "oil".data.isPrefixOf t) (cs.drop 6))
    (pyLower s)

end Sensitivity

open Sensitivity in
/-- `logic/sensitivity.py::_get_categories`. The Python set is modelled as a
duplicate-free list built in test order A,B,C,D,E,F (the code adds each
category at most once; only membership is used afterwards). Category B is
added from its keyword list, or failing that from the citrus-peel /
mentha regex patterns, exactly as in the source. -/
def get_categories (inci_name : String) : List Sensitivity.Cat :=
  if pyEmpty inci_name then []
  else
    let lower := pyLower inci_name
    let hasB := anyContains CAT_B lower
      || citrusPeelSearch inci_name || menthaSearch inci_name
    (if anyContains CAT_A lower then [Cat.A] else [])
    ++ (if hasB then [Cat.B] else [])
    ++ (if anyContains CAT_C lower then [Cat.C] else [])
    ++ (if anyContains CAT_D lower then [Cat.D] else [])
    ++ (if anyContains CAT_E lower then [Cat.E] else [])
    ++ (if anyContains CAT_F lower then [Cat.F] else [])

namespace Sensitivity

/-- `_EXCLUSIONS` of `logic/sensitivity.py`: the static per-level category
exclusion table, in dict insertion order (columns 19..24). -/
def EXCLUSIONS : List (Nat × List Cat) :=
  [(19, []),
   (20, [Cat.A, Cat.F]),
   (21, [Cat.A, Cat.C, Cat.F]),
   (22, [Cat.A, Cat.C, Cat.E, Cat.F]),
   (23, [Cat.A, Cat.C, Cat.D, Cat.E, Cat.F]),
   (24, [Cat.A, Cat.B, Cat.C, Cat.D, Cat.E, Cat.F])]

/-- Python `cats & excluded_cats` truthiness: the two category sets meet. -/
def catsIntersect (cats excl : List Cat) : Bool :=
  cats.any (fun c => excl.contains c)

end Sensitivity

/-! ### Association lists with Python dict semantics -/

/-- Python dict assignment `d[k] = v`: overwrite in place when the key is
present (keeping its position), append otherwise. -/
def dinsert (k : Nat) (v : String) : List (Nat × String) → List (Nat × String)
  | [] => [(k, v)]
  | (k1, v1) :: rest =>
    if k1 = k then (k, v) :: rest else (k1, v1) :: dinsert k v rest

/-- Python dict read `d.get(k)`. -/
def dget (k : Nat) : List (Nat × String) → Option String
  | [] => none
  | (k1, v1) :: rest => if k1 = k then some v1 else dget k rest

open Sensitivity in
/-- `logic/sensitivity.py::get_sensitivity_ratings`: empty dict when the
category set is empty, otherwise one "Yes"/"No" entry per level of
`_EXCLUSIONS`. -/
def get_sensitivity_ratings (inci_name : String) : List (Nat × String) :=
  let cats := get_categories inci_name
  if cats.isEmpty then []
  else
    EXCLUSIONS.foldl
      (fun result ce =>
        dinsert ce.1 (if catsIntersect cats ce.2 then "No" else "Yes") result)
      []

/-! ### External capability results

The scrapers (`scrapers/skinsafe.py`, `scrapers/cosing.py`) are network
collaborators, out of the verified core; their results are modelled as
records of optional badge fields which the theorems quantify over. -/

/-- The badge fields of `scrapers/skinsafe.py::SkinsafeResult` consumed by
the enrichers (all `Optional[str]`), in declaration order. -/
structure SkinsafeResult where
  teen : Option String
  vegetarian : Option String
  vegan : Option String
  gluten_free : Option String
  paleo : Option String
  unscented : Option String
  paraben_free : Option String
  sulphate_free : Option String
  silicon_free : Option String
  nut_free : Option String
  soy_free : Option String
  latex_free : Option String
  sesame_free : Option String
  citrus_free : Option String
  dye_free : Option String
  fragrance_free : Option String
  scent_free : Option String
  seafood_free : Option String
  dairy_free : Option String

/-- The fields of `scrapers/cosing.py::CosingResult` consumed by the
enrichers. -/
structure CosingResult where
  inci_name : Option String
  aliases : Option String
  role : Option String
  description : Option String
  found : Bool

/-- One conditional dict assignment: `if value is not None: result[k] = value`. -/
def stepIns (result : List (Nat × String)) (kv : Nat × Option String) :
    List (Nat × String) :=
  match kv.2 with
  | some v => dinsert kv.1 v result
  | none => result

/-- A loop of conditional dict assignments over key/optional-value pairs. -/
def stepFold (l : List (Nat × Option String)) (init : List (Nat × String)) :
    List (Nat × String) :=
  l.foldl stepIns init

/-! ### `enrichers/dietary_enricher.py` -/

namespace Dietary

/-- `_COL_MAP` of `enrichers/dietary_enricher.py`: SkinSafe badge field
(as an accessor) to column index, in dict insertion order. -/
def COL_MAP : List ((SkinsafeResult → Option String) × Nat) :=
  [(SkinsafeResult.vegetarian, 37), (SkinsafeResult.vegan, 38),
   (SkinsafeResult.gluten_free, 39), (SkinsafeResult.paleo, 40),
   (SkinsafeResult.unscented, 41), (SkinsafeResult.paraben_free, 42),
   (SkinsafeResult.sulphate_free, 43), (SkinsafeResult.silicon_free, 44),
   (SkinsafeResult.nut_free, 45), (SkinsafeResult.soy_free, 46),
   (SkinsafeResult.latex_free, 47), (SkinsafeResult.sesame_free, 48),
   (SkinsafeResult.citrus_free, 49), (SkinsafeResult.dye_free, 50),
   (SkinsafeResult.fragrance_free, 51), (SkinsafeResult.scent_free, 52),
   (SkinsafeResult.seafood_free, 53), (SkinsafeResult.dairy_free, 54)]

/-- `_LOGIC_MAP` of `enrichers/dietary_enricher.py`. -/
def LOGIC_MAP : List (Nat × (String → Option String)) :=
  [(37, is_vegetarian), (38, is_vegan), (40, is_paleo),
   (44, is_silicone_free), (47, is_latex_free), (48, is_sesame_free),
   (53, is_seafood_free), (54, is_dairy_free)]

end Dietary

/-- `enrichers/dietary_enricher.py::DietaryEnricher.enrich_with_inci`.
The call `scrape_skinsafe(ingredient_name)` is the opaque lookup
capability; its result `ss` is a parameter here. Step 1 seeds the record
from every non-`None` badge field, step 2 overwrites from every rule that
returns a verdict on the INCI name. -/
def dietary_enrich_with_inci (ss : SkinsafeResult) (inci_name : String) :
    List (Nat × String) :=
  let step1 := stepFold (Dietary.COL_MAP.map (fun fc => (fc.2, fc.1 ss))) []
  stepFold (Dietary.LOGIC_MAP.map (fun cf => (cf.1, cf.2 inci_name))) step1

/-- `DietaryEnricher.enrich` delegates to `enrich_with_inci` with the trade
name substituted for the INCI name. -/
def dietary_enrich (ss : SkinsafeResult) (ingredient_name : String) :
    List (Nat × String) :=
  dietary_enrich_with_inci ss ingredient_name

/-! ### The other enricher units (`enrichers/*.py`) -/

/-- Python truthiness of an `Optional[str]`: `None` and `""` are falsy. -/
def pyTruthyOpt : Option String → Bool
  | none => false
  | some s => !pyEmpty s

/-- `enrichers/identity_enricher.py::IdentityEnricher.enrich` (the CosIng
scrape is the opaque capability parameter `cos`). -/
def identity_enrich (cos : CosingResult) (ingredient_name : String) :
    List (Nat × String) :=
  let result : List (Nat × String) := [(0, ingredient_name)]
  if cos.found then
    let result :=
      match cos.inci_name with
      | some s => if pyEmpty s then result else dinsert 1 s result
      | none => result
    match cos.aliases with
    | some s => if pyEmpty s then result else dinsert 2 s result
    | none => result
  else result

/-- `enrichers/safety_enricher.py::SafetyEnricher.enrich`. -/
def safety_enrich (cos : CosingResult) (_ingredient_name : String) :
    List (Nat × String) :=
  if cos.found then
    let result : List (Nat × String) := []
    let result :=
      match cos.role with
      | some s => if pyEmpty s then result else dinsert 5 s result
      | none => result
    let result :=
      match cos.description with
      | some s => if pyEmpty s then result else dinsert 6 s result
      | none => result
    dinsert 7 "CosIng" result
  else []

/-- `enrichers/skin_type_enricher.py::SkinTypeEnricher.enrich_with_inci`
(`enrich` calls it with the trade name as INCI name): `result.update` of
the empty dict with the sensitivity ratings. -/
def skin_type_enrich (inci_name : String) : List (Nat × String) :=
  (get_sensitivity_ratings inci_name).foldl
    (fun acc kv => dinsert kv.1 kv.2 acc) []

/-- `enrichers/age_group_enricher.py::AgeGroupEnricher.enrich`. -/
def age_group_enrich (ss : SkinsafeResult) (_ingredient_name : String) :
    List (Nat × String) :=
  match ss.teen with
  | some v => dinsert 31 v []
  | none => []

/-- `enrichers/concern_enricher.py::ConcernEnricher.enrich` (stub). -/
def concern_enrich (_ingredient_name : String) : List (Nat × String) := []

/-- `enrichers/benefits_enricher.py::BenefitsEnricher.enrich` (stub). -/
def benefits_enrich (_ingredient_name : String) : List (Nat × String) := []

/-! ### `enrichers/base_enricher.py` and `main.py` -/

/-- An enricher unit as seen by the orchestrator: `enrich` may fail
(Python exceptions are modelled as the `Except.error` branch). -/
structure Enricher where
  enrich : String → Except String (List (Nat × String))

/-- `enrichers/base_enricher.py::BaseEnricher.safe_enrich`: `try: return
self.enrich(name) except Exception: return {}` (the `print` in the handler
is an operator-facing side effect with no bearing on the returned record). -/
def safe_enrich (e : Enricher) (ingredient_name : String) :
    List (Nat × String) :=
  match e.enrich ingredient_name with
  | Except.ok r => r
  | Except.error _ => []

/-- Python `merged.update(partial_record)`: assign every entry in
iteration order. -/
def dictUpdate (merged p : List (Nat × String)) : List (Nat × String) :=
  p.foldl (fun acc kv => dinsert kv.1 kv.2 acc) merged

/-- The enricher loop of `main.py::process_ingredient`: fold
`merged.update(enricher.safe_enrich(name))` over the registered units.
(The trailing `build_record` call re-keys name-keyed entries; all entries
here are already column-indexed, so it is outside the claims modelled.) -/
def process_ingredient (enrichers : List Enricher) (ingredient_name : String) :
    List (Nat × String) :=
  enrichers.foldl (fun merged e => dictUpdate merged (safe_enrich e ingredient_name)) []

/-! ### Dictionary lemmas -/

theorem dget_dinsert (c k : Nat) (v : String) (d : List (Nat × String)) :
    dget c (dinsert k v d) = if k = c then some v else dget c d := by
  induction d with
  | nil => simp [dinsert, dget]
  | cons hd tl ih =>
    obtain ⟨k1, v1⟩ := hd
    by_cases h1 : k1 = k <;> by_cases h2 : k1 = c <;> by_cases h3 : k = c <;>
      simp_all [dinsert, dget]

theorem dget_stepIns (c : Nat) (d : List (Nat × String))
    (kv : Nat × Option String) :
    dget c (stepIns d kv) =
      if kv.1 = c then
        (match kv.2 with | some v => some v | none => dget c d)
      else dget c d := by
  obtain ⟨k, v⟩ := kv
  cases v <;> simp [stepIns, dget_dinsert]

theorem mem_keys_dinsert (c k : Nat) (v : String) (d : List (Nat × String)) :
    c ∈ (dinsert k v d).map Prod.fst ↔ c = k ∨ c ∈ d.map Prod.fst := by
  induction d with
  | nil => simp [dinsert, eq_comm]
  | cons hd tl ih =>
    obtain ⟨k1, v1⟩ := hd
    by_cases h1 : k1 = k <;> simp_all [dinsert] <;> tauto

theorem mem_keys_stepFold (l : List (Nat × Option String))
    (init : List (Nat × String)) (c : Nat)
    (h : c ∈ (stepFold l init).map Prod.fst) :
    c ∈ init.map Prod.fst ∨ c ∈ l.map Prod.fst := by
  induction l generalizing init with
  | nil => exact Or.inl h
  | cons hd tl ih =>
    obtain ⟨k, v⟩ := hd
    have h2 := ih (stepIns init (k, v)) h
    rcases h2 with h2 | h2
    · cases v with
      | none => exact Or.inl h2
      | some x =>
        rcases (mem_keys_dinsert c k x init).mp h2 with h3 | h3
        · refine Or.inr ?_
          simp only [List.map_cons, List.mem_cons]
          exact Or.inl h3
        · exact Or.inl h3
    · refine Or.inr ?_
      simp only [List.map_cons, List.mem_cons]
      exact Or.inr h2

/-! ### Dietary enricher: per-column characterisation -/

/-- Declared per-field priority of the dietary unit: the rule verdict when
present, otherwise the lookup field. -/
def ruleOverLookup (rule lookup : Option String) : Option String :=
  match rule with
  | some v => some v
  | none => lookup

theorem dget_dietary_37 (ss : SkinsafeResult) (inci : String) :
    dget 37 (dietary_enrich_with_inci ss inci) =
      ruleOverLookup (is_vegetarian inci) ss.vegetarian := by
  simp only [dietary_enrich_with_inci, Dietary.COL_MAP, Dietary.LOGIC_MAP,
    stepFold, List.map_cons, List.map_nil, List.foldl_cons, List.foldl_nil,
    dget_stepIns]
  norm_num
  cases is_vegetarian inci <;> cases ss.vegetarian <;> simp [dget, ruleOverLookup]

theorem dget_dietary_38 (ss : SkinsafeResult) (inci : String) :
    dget 38 (dietary_enrich_with_inci ss inci) =
      ruleOverLookup (is_vegan inci) ss.vegan := by
  simp only [dietary_enrich_with_inci, Dietary.COL_MAP, Dietary.LOGIC_MAP,
    stepFold, List.map_cons, List.map_nil, List.foldl_cons, List.foldl_nil,
    dget_stepIns]
  norm_num
  cases is_vegan inci <;> cases ss.vegan <;> simp [dget, ruleOverLookup]

theorem dget_dietary_40 (ss : SkinsafeResult) (inci : String) :
    dget 40 (dietary_enrich_with_inci ss inci) =
      ruleOverLookup (is_paleo inci) ss.paleo := by
  simp only [dietary_enrich_with_inci, Dietary.COL_MAP, Dietary.LOGIC_MAP,
    stepFold, List.map_cons, List.map_nil, List.foldl_cons, List.foldl_nil,
    dget_stepIns]
  norm_num
  cases is_paleo inci <;> cases ss.paleo <;> simp [dget, ruleOverLookup]

theorem dget_dietary_44 (ss : SkinsafeResult) (inci : String) :
    dget 44 (dietary_enrich_with_inci ss inci) =
      ruleOverLookup (is_silicone_free inci) ss.silicon_free := by
  simp only [dietary_enrich_with_inci, Dietary.COL_MAP, Dietary.LOGIC_MAP,
    stepFold, List.map_cons, List.map_nil, List.foldl_cons, List.foldl_nil,
    dget_stepIns]
  norm_num
  cases is_silicone_free inci <;> cases ss.silicon_free <;> simp [dget, ruleOverLookup]

theorem dget_dietary_47 (ss : SkinsafeResult) (inci : String) :
    dget 47 (dietary_enrich_with_inci ss inci) =
      ruleOverLookup (is_latex_free inci) ss.latex_free := by
  simp only [dietary_enrich_with_inci, Dietary.COL_MAP, Dietary.LOGIC_MAP,
    stepFold, List.map_cons, List.map_nil, List.foldl_cons, List.foldl_nil,
    dget_stepIns]
  norm_num
  cases is_latex_free inci <;> cases ss.latex_free <;> simp [dget, ruleOverLookup]

theorem dget_dietary_48 (ss : SkinsafeResult) (inci : String) :
    dget 48 (dietary_enrich_with_inci ss inci) =
      ruleOverLookup (is_sesame_free inci) ss.sesame_free := by
  simp only [dietary_enrich_with_inci, Dietary.COL_MAP, Dietary.LOGIC_MAP,
    stepFold, List.map_cons, List.map_nil, List.foldl_cons, List.foldl_nil,
    dget_stepIns]
  norm_num
  cases is_sesame_free inci <;> cases ss.sesame_free <;> simp [dget, ruleOverLookup]

theorem dget_dietary_53 (ss : SkinsafeResult) (inci : String) :
    dget 53 (dietary_enrich_with_inci ss inci) =
      ruleOverLookup (is_seafood_free inci) ss.seafood_free := by
  simp only [dietary_enrich_with_inci, Dietary.COL_MAP, Dietary.LOGIC_MAP,
    stepFold, List.map_cons, List.map_nil, List.foldl_cons, List.foldl_nil,
    dget_stepIns]
  norm_num
  cases is_seafood_free inci <;> cases ss.seafood_free <;> simp [dget, ruleOverLookup]

theorem dget_dietary_54 (ss : SkinsafeResult) (inci : String) :
    dget 54 (dietary_enrich_with_inci ss inci) =
      ruleOverLookup (is_dairy_free inci) ss.dairy_free := by
  simp only [dietary_enrich_with_inci, Dietary.COL_MAP, Dietary.LOGIC_MAP,
    stepFold, List.map_cons, List.map_nil, List.foldl_cons, List.foldl_nil,
    dget_stepIns]
  norm_num
  cases is_dairy_free inci <;> cases ss.dairy_free <;> simp [dget, ruleOverLookup]

/-- The columns of the dietary unit that have an owned rule, paired with
that rule (`_LOGIC_MAP`) and the lookup badge field seeded for the same
column (`_COL_MAP`). -/
def OWNED : List (Nat × (String → Option String) × (SkinsafeResult → Option String)) :=
  [(37, is_vegetarian, SkinsafeResult.vegetarian),
   (38, is_vegan, SkinsafeResult.vegan),
   (40, is_paleo, SkinsafeResult.paleo),
   (44, is_silicone_free, SkinsafeResult.silicon_free),
   (47, is_latex_free, SkinsafeResult.latex_free),
   (48, is_sesame_free, SkinsafeResult.sesame_free),
   (53, is_seafood_free, SkinsafeResult.seafood_free),
   (54, is_dairy_free, SkinsafeResult.dairy_free)]

/-- C1: in the dietary enricher, for every lookup result and INCI name and
every column with an owned rule (37, 38, 40, 44, 47, 48, 53, 54): a
non-absent rule verdict is what the partial record maps the column to,
regardless of the lookup value; when the rule abstains, a non-absent
lookup value fills the column; when both are absent, the column is absent
from the partial record. -/
theorem dietary_rule_overrides_lookup (ss : SkinsafeResult) (inci : String)
    (c : Nat) (fn : String → Option String)
    (fld : SkinsafeResult → Option String) (hmem : (c, fn, fld) ∈ OWNED) :
    (∀ v, fn inci = some v →
        dget c (dietary_enrich_with_inci ss inci) = some v)
    ∧ (fn inci = none → ∀ w, fld ss = some w →
        dget c (dietary_enrich_with_inci ss inci) = some w)
    ∧ (fn inci = none → fld ss = none →
        dget c (dietary_enrich_with_inci ss inci) = none) := by
  simp only [OWNED, List.mem_cons, List.not_mem_nil, or_false,
    Prod.mk.injEq] at hmem
  rcases hmem with h | h | h | h | h | h | h | h <;>
    obtain ⟨rfl, rfl, rfl⟩ := h <;>
    refine ⟨fun v hv => ?_, fun hn w hw => ?_, fun hn hw => ?_⟩ <;>
    simp_all [dget_dietary_37, dget_dietary_38, dget_dietary_40,
      dget_dietary_44, dget_dietary_47, dget_dietary_48, dget_dietary_53,
      dget_dietary_54, ruleOverLookup]

/-- A concrete SkinSafe lookup result: badges present for vegetarian,
vegan and paleo, absent everywhere else. -/
def ssW : SkinsafeResult :=
  ⟨none, some "Yes", some "Yes", none, some "Yes", none, none, none, none,
   none, none, none, none, none, none, none, none, none, none⟩

/-- Witness for C1: the vegan rule's "No" overrides the lookup's "Yes" on
column 38; the abstaining paleo rule lets the lookup's "Yes" through on
column 40; column 48 is absent when both rule and lookup abstain. -/
theorem dietary_rule_overrides_lookup_witness :
    dget 38 (dietary_enrich_with_inci ssW "Salmon Oil") = some "No"
    ∧ dget 40 (dietary_enrich_with_inci ssW "water") = some "Yes"
    ∧ dget 48 (dietary_enrich_with_inci ssW "water") = none :=
  ⟨(dietary_rule_overrides_lookup ssW "Salmon Oil" 38 is_vegan
      SkinsafeResult.vegan (by simp [OWNED])).1 "No" (by decide),
   (dietary_rule_overrides_lookup ssW "water" 40 is_paleo
      SkinsafeResult.paleo (by simp [OWNED])).2.1 (by decide) "Yes" rfl,
   (dietary_rule_overrides_lookup ssW "water" 48 is_sesame_free
      SkinsafeResult.sesame_free (by simp [OWNED])).2.2 (by decide) rfl⟩

/-! ### Sensitivity engine lemmas -/

theorem ratings_unfold (name : String) :
    get_sensitivity_ratings name =
      if (get_categories name).isEmpty then []
      else Sensitivity.EXCLUSIONS.map
        (fun ce => (ce.1,
          if Sensitivity.catsIntersect (get_categories name) ce.2
          then "No" else "Yes")) := by
  by_cases h : (get_categories name).isEmpty <;>
    simp [get_sensitivity_ratings, h, Sensitivity.EXCLUSIONS, dinsert]

theorem catsIntersect_mono {cats e1 e2 : List Sensitivity.Cat}
    (hsub : ∀ c ∈ e1, c ∈ e2)
    (h : Sensitivity.catsIntersect cats e1 = true) :
    Sensitivity.catsIntersect cats e2 = true := by
  simp only [Sensitivity.catsIntersect, List.any_eq_true] at h ⊢
  obtain ⟨c, hc, hm⟩ := h
  refine ⟨c, hc, ?_⟩
  have hmem : c ∈ e1 := by simpa using hm
  simpa using hsub c hmem

theorem catsIntersect_full (cats : List Sensitivity.Cat) (h : cats ≠ []) :
    Sensitivity.catsIntersect cats
      [Sensitivity.Cat.A, Sensitivity.Cat.B, Sensitivity.Cat.C,
       Sensitivity.Cat.D, Sensitivity.Cat.E, Sensitivity.Cat.F] = true := by
  cases cats with
  | nil => exact absurd rfl h
  | cons c rest => cases c <;> simp [Sensitivity.catsIntersect]

theorem dget_ratings (name : String)
    (hni : ¬(get_categories name).isEmpty)
    (col : Nat) (excl : List Sensitivity.Cat)
    (hmem : (col, excl) ∈ Sensitivity.EXCLUSIONS) :
    dget col (get_sensitivity_ratings name) =
      some (if Sensitivity.catsIntersect (get_categories name) excl
            then "No" else "Yes") := by
  rw [ratings_unfold name, if_neg hni]
  simp only [Sensitivity.EXCLUSIONS, List.mem_cons, List.not_mem_nil,
    or_false, Prod.mk.injEq] at hmem
  rcases hmem with h | h | h | h | h | h <;>
    obtain ⟨rfl, rfl⟩ := h <;>
    simp [Sensitivity.EXCLUSIONS, dget]

/-- C2: `get_sensitivity_ratings` returns the empty map exactly when the
category set is empty; otherwise its key set is exactly the six level
columns 19..24 in order, each mapped to "Yes" or "No" — never a partially
populated set of levels. -/
theorem sensitivity_all_or_nothing (name : String) :
    (get_sensitivity_ratings name = [] ↔ get_categories name = [])
    ∧ (get_categories name ≠ [] →
        (get_sensitivity_ratings name).map Prod.fst = [19, 20, 21, 22, 23, 24]
        ∧ ∀ p ∈ get_sensitivity_ratings name, p.2 = "Yes" ∨ p.2 = "No") := by
  by_cases h : (get_categories name).isEmpty
  · have hc : get_categories name = [] := by simpa [List.isEmpty_iff] using h
    constructor
    · rw [ratings_unfold name, if_pos h]
      simp [hc]
    · intro hne
      exact absurd hc hne
  · have hne : get_categories name ≠ [] := by
      simpa [List.isEmpty_iff] using h
    refine ⟨⟨fun hr => ?_, fun hc => absurd hc hne⟩, fun _ => ⟨?_, ?_⟩⟩
    · rw [ratings_unfold name, if_neg h] at hr
      simp [Sensitivity.EXCLUSIONS] at hr
    · rw [ratings_unfold name, if_neg h]
      simp [Sensitivity.EXCLUSIONS]
    · intro p hp
      rw [ratings_unfold name, if_neg h] at hp
      obtain ⟨ce, _, rfl⟩ := List.mem_map.mp hp
      by_cases hb : Sensitivity.catsIntersect (get_categories name) ce.2 <;>
        simp [hb]

/-- Witness for C2: "water" matches no category and gets the empty map;
"glycolic acid" is in categories A and D and gets all six levels. -/
theorem sensitivity_all_or_nothing_witness :
    get_sensitivity_ratings "water" = []
    ∧ (get_sensitivity_ratings "glycolic acid").map Prod.fst
        = [19, 20, 21, 22, 23, 24] :=
  ⟨(sensitivity_all_or_nothing "water").1.mpr (by decide),
   ((sensitivity_all_or_nothing "glycolic acid").2 (by decide)).1⟩

/-- C3: for every INCI name with a non-empty category set and every level
of the exclusion table, the level's verdict is "No" iff the name's
category set intersects that level's static exclusion set, and "Yes" iff
it does not. -/
theorem sensitivity_exclusion_iff (name : String)
    (h : get_categories name ≠ []) (ce : Nat × List Sensitivity.Cat)
    (hce : ce ∈ Sensitivity.EXCLUSIONS) :
    (dget ce.1 (get_sensitivity_ratings name) = some "No"
      ↔ Sensitivity.catsIntersect (get_categories name) ce.2 = true)
    ∧ (dget ce.1 (get_sensitivity_ratings name) = some "Yes"
      ↔ Sensitivity.catsIntersect (get_categories name) ce.2 = false) := by
  have hni : ¬(get_categories name).isEmpty := by
    simpa [List.isEmpty_iff] using h
  rw [dget_ratings name hni ce.1 ce.2 hce]
  by_cases hb : Sensitivity.catsIntersect (get_categories name) ce.2 <;>
    simp [hb]

/-- Witness for C3: "glycolic acid" belongs to categories A and D, so
level 23 (whose exclusion set contains A and D) reads "No" and level 19
(empty exclusion set) reads "Yes". -/
theorem sensitivity_exclusion_iff_witness :
    dget 23 (get_sensitivity_ratings "glycolic acid") = some "No"
    ∧ dget 19 (get_sensitivity_ratings "glycolic acid") = some "Yes" :=
  ⟨(sensitivity_exclusion_iff "glycolic acid" (by decide)
      (23, [Sensitivity.Cat.A, Sensitivity.Cat.C, Sensitivity.Cat.D,
            Sensitivity.Cat.E, Sensitivity.Cat.F]) (by decide)).1.mpr
      (by decide),
   (sensitivity_exclusion_iff "glycolic acid" (by decide)
      (19, []) (by decide)).2.mpr (by decide)⟩

/-- C10: the exclusion sets are nested along the level order, the verdicts
are antitone in the level (a "No" at one level forces "No" at every
higher level), and whenever any verdicts are returned at all column 19 is
"Yes" and column 24 is "No". -/
theorem sensitivity_antitone (name : String)
    (h : get_categories name ≠ []) :
    (∀ ce1 ∈ Sensitivity.EXCLUSIONS, ∀ ce2 ∈ Sensitivity.EXCLUSIONS,
      ce1.1 ≤ ce2.1 → ∀ c ∈ ce1.2, c ∈ ce2.2)
    ∧ (∀ ce1 ∈ Sensitivity.EXCLUSIONS, ∀ ce2 ∈ Sensitivity.EXCLUSIONS,
        ce1.1 ≤ ce2.1 →
        dget ce1.1 (get_sensitivity_ratings name) = some "No" →
        dget ce2.1 (get_sensitivity_ratings name) = some "No")
    ∧ dget 19 (get_sensitivity_ratings name) = some "Yes"
    ∧ dget 24 (get_sensitivity_ratings name) = some "No" := by
  have hni : ¬(get_categories name).isEmpty := by
    simpa [List.isEmpty_iff] using h
  refine ⟨by decide, ?_, ?_, ?_⟩
  · intro ce1 h1 ce2 h2 hle hno
    rw [dget_ratings name hni ce1.1 ce1.2 h1] at hno
    rw [dget_ratings name hni ce2.1 ce2.2 h2]
    have hsub : ∀ c ∈ ce1.2, c ∈ ce2.2 := by
      revert hle
      simp only [Sensitivity.EXCLUSIONS, List.mem_cons, List.not_mem_nil,
        or_false] at h1 h2
      rcases h1 with rfl | rfl | rfl | rfl | rfl | rfl <;>
        rcases h2 with rfl | rfl | rfl | rfl | rfl | rfl <;>
        intro hle <;> first | exact absurd hle (by decide) | decide
    cases hb1 : Sensitivity.catsIntersect (get_categories name) ce1.2 with
    | false => rw [hb1] at hno; simp at hno
    | true => rw [catsIntersect_mono hsub hb1]; simp
  · rw [dget_ratings name hni 19 [] (by decide)]
    simp [Sensitivity.catsIntersect]
  · rw [dget_ratings name hni 24
      [Sensitivity.Cat.A, Sensitivity.Cat.B, Sensitivity.Cat.C,
       Sensitivity.Cat.D, Sensitivity.Cat.E, Sensitivity.Cat.F] (by decide)]
    rw [catsIntersect_full (get_categories name) h]
    simp

/-- Witness for C10: for "glycolic acid" (categories A and D), the "No" at
level 20 propagates to level 23, and levels 19/24 read "Yes"/"No". -/
theorem sensitivity_antitone_witness :
    dget 23 (get_sensitivity_ratings "glycolic acid") = some "No"
    ∧ dget 19 (get_sensitivity_ratings "glycolic acid") = some "Yes"
    ∧ dget 24 (get_sensitivity_ratings "glycolic acid") = some "No" :=
  ⟨(sensitivity_antitone "glycolic acid" (by decide)).2.1
      (20, [Sensitivity.Cat.A, Sensitivity.Cat.F]) (by decide)
      (23, [Sensitivity.Cat.A, Sensitivity.Cat.C, Sensitivity.Cat.D,
            Sensitivity.Cat.E, Sensitivity.Cat.F]) (by decide)
      (by decide) (by decide),
   (sensitivity_antitone "glycolic acid" (by decide)).2.2.1,
   (sensitivity_antitone "glycolic acid" (by decide)).2.2.2⟩

/-- C4: a "No" from the seafood rule forces "No" from both composites, and
a "No" from the dairy rule forces "No" from the vegan composite, for every
(necessarily non-empty) INCI name, independently of the composites' own
trigger and confirmed-positive lists. -/
theorem composite_delegation (n : String) :
    (is_seafood_free n = some "No" →
      is_vegan n = some "No" ∧ is_vegetarian n = some "No")
    ∧ (is_dairy_free n = some "No" → is_vegan n = some "No") := by
  constructor
  · intro h
    have hne : pyEmpty n = false := by
      cases he : pyEmpty n
      · rfl
      · rw [show is_seafood_free n = none by simp [is_seafood_free, he]] at h
        exact Option.noConfusion h
    constructor <;> simp [is_vegan, is_vegetarian, hne, h]
  · intro h
    have hne : pyEmpty n = false := by
      cases he : pyEmpty n
      · rfl
      · rw [show is_dairy_free n = none by simp [is_dairy_free, he]] at h
        exact Option.noConfusion h
    by_cases hs : is_seafood_free n = some "No" <;>
      simp [is_vegan, hne, hs, h]

/-- Witness for C4: "Salmon Oil" is flagged by the seafood rule, so both
composites return "No"; "Milk" is flagged by the dairy rule, so the vegan
composite returns "No". -/
theorem composite_delegation_witness :
    is_vegan "Salmon Oil" = some "No"
    ∧ is_vegetarian "Salmon Oil" = some "No"
    ∧ is_vegan "Milk" = some "No" :=
  ⟨((composite_delegation "Salmon Oil").1 (by decide)).1,
   ((composite_delegation "Salmon Oil").1 (by decide)).2,
   (composite_delegation "Milk").2 (by decide)⟩

/-- C5: false-positive suppression before trigger testing — "Lactic Acid"
does not trigger the dairy rule while "Milk" does, and "Spirulina Algae
Extract" does not trigger the seafood rule while "Hydrolyzed Fish
Collagen" does. -/
theorem false_positive_suppression :
    is_dairy_free "Lactic Acid" = none
    ∧ is_dairy_free "Milk" = some "No"
    ∧ is_seafood_free "Spirulina Algae Extract" = none
    ∧ is_seafood_free "Hydrolyzed Fish Collagen" = some "No" := by
  refine ⟨by decide, by decide, by decide, by decide⟩

/-- C6: every classification rule returns "no opinion" on empty input (the
sensitivity engine returns the empty map). Python's guard `if not
inci_name` treats `None` identically to `""`, and these Lean translations
are total functions, so no input can raise. -/
theorem empty_input_absent :
    is_dairy_free "" = none ∧ is_seafood_free "" = none
    ∧ is_vegan "" = none ∧ is_vegetarian "" = none
    ∧ is_paleo "" = none ∧ is_silicone_free "" = none
    ∧ is_latex_free "" = none ∧ is_sesame_free "" = none
    ∧ get_sensitivity_ratings "" = [] := by
  decide

/-- C7: `safe_enrich` downgrades a raising unit to the empty partial record
and never propagates the failure; a normally returning unit's result is
passed through unchanged; and the merge over the remaining units of
`process_ingredient` proceeds as if the failing unit were not there. -/
theorem safe_enrich_contains_failures (e : Enricher) (name : String) :
    (∀ msg, e.enrich name = Except.error msg → safe_enrich e name = [])
    ∧ (∀ r, e.enrich name = Except.ok r → safe_enrich e name = r)
    ∧ (∀ pre post msg, e.enrich name = Except.error msg →
        process_ingredient (pre ++ e :: post) name =
          process_ingredient (pre ++ post) name) := by
  refine ⟨fun msg h => by simp [safe_enrich, h], fun r h => by simp [safe_enrich, h], ?_⟩
  intro pre post msg h
  simp [process_ingredient, List.foldl_append, safe_enrich, h, dictUpdate]

/-- A unit whose `enrich` raises (modelled as an error result). -/
def failing_unit : Enricher :=
  ⟨fun _ => Except.error "lookup capability raised"⟩

/-- A unit whose `enrich` returns the identity column normally. -/
def name_only_unit : Enricher :=
  ⟨fun n => Except.ok [(0, n)]⟩

/-- Witness for C7: the failing unit yields the empty record, the normal
unit's record passes through, and dropping the failing unit from the
registered list does not change the merged result. -/
theorem safe_enrich_contains_failures_witness :
    safe_enrich failing_unit "Niacinamide" = []
    ∧ safe_enrich name_only_unit "Niacinamide" = [(0, "Niacinamide")]
    ∧ process_ingredient [name_only_unit, failing_unit] "Niacinamide" =
        process_ingredient [name_only_unit] "Niacinamide" :=
  ⟨(safe_enrich_contains_failures failing_unit "Niacinamide").1 _ rfl,
   (safe_enrich_contains_failures name_only_unit "Niacinamide").2.1 _ rfl,
   (safe_enrich_contains_failures failing_unit "Niacinamide").2.2
      [name_only_unit] [] _ rfl⟩

/-- Counterexample to C8 as stated: "lactose" is not a trigger keyword of
the dairy rule — `_CONTAINS` does not list it — so the rule does not treat
it as "both a trigger keyword and a declared false positive". -/
theorem lactose_dual_role_counterexample :
    ¬("lactose" ∈ Dairy.CONTAINS ∧ "lactose" ∈ Dairy.FALSE_POSITIVES) := by
  decide

/-- C8 amended: "lactose" appears only in the dairy rule's false-positive
list, not among its trigger keywords; an input whose only dairy-related
content is "lactose" yields no dairy verdict (and the false-positive strip
happens before trigger testing, so this cannot change). -/
theorem lactose_only_false_positive :
    "lactose" ∈ Dairy.FALSE_POSITIVES
    ∧ "lactose" ∉ Dairy.CONTAINS
    ∧ is_dairy_free "Lactose" = none
    ∧ is_dairy_free "lactose" = none := by
  decide

/-! ### Column ownership of the registered enricher units -/

theorem exists_mem_dinsert (c k : Nat) (v : String) (d : List (Nat × String)) :
    (∃ x, (c, x) ∈ dinsert k v d) ↔ c = k ∨ ∃ x, (c, x) ∈ d := by
  simpa using mem_keys_dinsert c k v d

theorem keys_identity (cos : CosingResult) (name : String) :
    ∀ c ∈ (identity_enrich cos name).map Prod.fst,
      c ∈ ([0, 1, 2] : List Nat) := by
  intro c hc
  obtain ⟨oin, oal, orole, odesc, fnd⟩ := cos
  cases fnd <;> cases oin <;> cases oal <;>
    simp only [identity_enrich] at hc <;>
    split_ifs at hc <;>
    simp_all [exists_mem_dinsert] <;>
    omega

theorem keys_safety (cos : CosingResult) (name : String) :
    ∀ c ∈ (safety_enrich cos name).map Prod.fst,
      c ∈ ([5, 6, 7] : List Nat) := by
  intro c hc
  obtain ⟨oin, oal, orole, odesc, fnd⟩ := cos
  cases fnd <;> cases orole <;> cases odesc <;>
    simp only [safety_enrich] at hc <;>
    split_ifs at hc <;>
    simp_all [exists_mem_dinsert] <;>
    omega

theorem mem_keys_dictUpdate (m p : List (Nat × String)) (c : Nat)
    (h : c ∈ (dictUpdate m p).map Prod.fst) :
    c ∈ m.map Prod.fst ∨ c ∈ p.map Prod.fst := by
  induction p generalizing m with
  | nil => exact Or.inl h
  | cons hd tl ih =>
    obtain ⟨k, v⟩ := hd
    have h2 := ih (dinsert k v m) h
    rcases h2 with h2 | h2
    · rcases (mem_keys_dinsert c k v m).mp h2 with h3 | h3
      · exact Or.inr (by simp [h3])
      · exact Or.inl h3
    · refine Or.inr ?_
      simp only [List.map_cons, List.mem_cons]
      exact Or.inr h2

theorem keys_skin_type (name : String) :
    ∀ c ∈ (skin_type_enrich name).map Prod.fst,
      c ∈ ([19, 20, 21, 22, 23, 24] : List Nat) := by
  intro c hc
  have h2 := mem_keys_dictUpdate [] (get_sensitivity_ratings name) c hc
  rcases h2 with h2 | h2
  · simp at h2
  · rw [ratings_unfold name] at h2
    by_cases h : (get_categories name).isEmpty
    · rw [if_pos h] at h2; simp at h2
    · rw [if_neg h] at h2
      simp [Sensitivity.EXCLUSIONS] at h2
      simp only [List.mem_cons, List.not_mem_nil, or_false]
      omega

theorem keys_age_group (ss : SkinsafeResult) (name : String) :
    ∀ c ∈ (age_group_enrich ss name).map Prod.fst,
      c ∈ ([31] : List Nat) := by
  intro c hc
  cases ht : ss.teen <;> simp_all [age_group_enrich, dinsert]

theorem keys_dietary (ss : SkinsafeResult) (inci : String) :
    ∀ c ∈ (dietary_enrich_with_inci ss inci).map Prod.fst,
      c ∈ ([37, 38, 39, 40, 41, 42, 43, 44, 45, 46, 47, 48, 49, 50, 51,
            52, 53, 54] : List Nat) := by
  intro c hc
  unfold dietary_enrich_with_inci at hc
  have h2 := mem_keys_stepFold _ _ c hc
  rcases h2 with h2 | h2
  · have h3 := mem_keys_stepFold _ _ c h2
    rcases h3 with h3 | h3
    · simp at h3
    · simp [Dietary.COL_MAP] at h3
      simp only [List.mem_cons, List.not_mem_nil, or_false]
      omega
  · simp [Dietary.LOGIC_MAP] at h2
    simp only [List.mem_cons, List.not_mem_nil, or_false]
    omega

/-- The column band each registered unit is allowed to write, by
registration position in `main.py::ENRICHERS` (stubs own no columns). -/
def BANDS_AT : Nat → List Nat
  | 0 => [0, 1, 2]
  | 1 => [5, 6, 7]
  | 2 => [19, 20, 21, 22, 23, 24]
  | 3 => [31]
  | 4 => [37, 38, 39, 40, 41, 42, 43, 44, 45, 46, 47, 48, 49, 50, 51, 52,
          53, 54]
  | _ => []

/-- The registered enricher set of `main.py::ENRICHERS`, in registration
order, indexed by position; each unit's `enrich` is specialised with the
opaque capability results it consumes. -/
def enricher_indexed (cos : CosingResult) (ss : SkinsafeResult)
    (name : String) : List (Nat × List (Nat × String)) :=
  [(0, identity_enrich cos name), (1, safety_enrich cos name),
   (2, skin_type_enrich name), (3, age_group_enrich ss name),
   (4, dietary_enrich_with_inci ss name), (5, concern_enrich name),
   (6, benefits_enrich name)]

theorem keys_in_band (cos : CosingResult) (ss : SkinsafeResult)
    (name : String) :
    ∀ ir ∈ enricher_indexed cos ss name,
      ∀ c ∈ ir.2.map Prod.fst, c ∈ BANDS_AT ir.1 := by
  intro ir hir
  simp only [enricher_indexed, List.mem_cons, List.not_mem_nil, or_false,
    Prod.mk.injEq] at hir
  rcases hir with h | h | h | h | h | h | h
  · obtain ⟨rfl, rfl⟩ := h
    exact keys_identity cos name
  · obtain ⟨rfl, rfl⟩ := h
    exact keys_safety cos name
  · obtain ⟨rfl, rfl⟩ := h
    exact keys_skin_type name
  · obtain ⟨rfl, rfl⟩ := h
    exact keys_age_group ss name
  · obtain ⟨rfl, rfl⟩ := h
    exact keys_dietary ss name
  · obtain ⟨rfl, rfl⟩ := h
    intro c hc; simp [concern_enrich] at hc
  · obtain ⟨rfl, rfl⟩ := h
    intro c hc; simp [benefits_enrich] at hc

theorem bands_pairwise_disjoint :
    ∀ i1 ∈ List.range 7, ∀ i2 ∈ List.range 7, i1 ≠ i2 →
      ∀ c ∈ BANDS_AT i1, c ∉ BANDS_AT i2 := by
  decide

/-- C9: across the full registered enricher set, the column-index sets the
units can write are pairwise disjoint: for every ingredient name (and
every behaviour of the external lookups), no column index appears in the
partial records of two units at different registration positions —
identity writes only 0..2, safety only 5..7, skin-type only 19..24,
age-group only 31, dietary only 37..54, and the stubs write nothing. -/
theorem enricher_columns_disjoint (cos : CosingResult) (ss : SkinsafeResult)
    (name : String) :
    (∀ ir ∈ enricher_indexed cos ss name,
      ∀ c ∈ ir.2.map Prod.fst, c ∈ BANDS_AT ir.1)
    ∧ (∀ ir1 ∈ enricher_indexed cos ss name,
        ∀ ir2 ∈ enricher_indexed cos ss name, ir1.1 ≠ ir2.1 →
        ∀ c ∈ ir1.2.map Prod.fst, c ∉ ir2.2.map Prod.fst) := by
  refine ⟨keys_in_band cos ss name, ?_⟩
  intro ir1 h1 ir2 h2 hne c hc1 hc2
  have hb1 := keys_in_band cos ss name ir1 h1 c hc1
  have hb2 := keys_in_band cos ss name ir2 h2 c hc2
  have hidx : ∀ ir ∈ enricher_indexed cos ss name, ir.1 ∈ List.range 7 := by
    intro ir hir
    simp only [enricher_indexed, List.mem_cons, List.not_mem_nil, or_false,
      Prod.mk.injEq] at hir
    rcases hir with h | h | h | h | h | h | h <;>
      (obtain ⟨rfl, -⟩ := h; simp)
  exact bands_pairwise_disjoint ir1.1 (hidx ir1 h1) ir2.1 (hidx ir2 h2)
    hne c hb1 hb2

/-- A concrete CosIng lookup result with every optional field present. -/
def cosW : CosingResult :=
  ⟨some "Glycolic Acid", some "INN glycolic", some "buffering", some "an AHA",
   true⟩

/-- Witness for C9: for "glycolic acid" the skin-type unit writes column
19 and it lies in that unit's band, and column 19 does not appear in the
dietary unit's record. -/
theorem enricher_columns_disjoint_witness :
    (19 : Nat) ∈ BANDS_AT 2
    ∧ (19 : Nat) ∉ (dietary_enrich_with_inci ssW "glycolic acid").map Prod.fst :=
  ⟨(enricher_columns_disjoint cosW ssW "glycolic acid").1
      (2, skin_type_enrich "glycolic acid") (by decide) 19 (by decide),
   (enricher_columns_disjoint cosW ssW "glycolic acid").2
      (2, skin_type_enrich "glycolic acid") (by decide)
      (4, dietary_enrich_with_inci ssW "glycolic acid") (by decide)
      (by decide) 19 (by decide)⟩

end IngredientAnalyzer
